import Mathlib

/-!
Shallow embedding of the experiment-orchestration and metrics-aggregation
scripts under `src/experiments` (grid_search.py, run.py, run_experiments.py,
experiments.py, tables.py, summary_table.py), together with theorems settling
the specification claims about them.

Conventions of the embedding:
* Python lists become `List`, Python numbers become `ℚ`/`ℤ`/`ℕ` (the scripts
  only ever divide exact integer telemetry values, so `ℚ` captures the values;
  `Real.sqrt` appears where pandas takes a square root).
* A Python function that can raise (`ZeroDivisionError`, `AssertionError`,
  `json.JSONDecodeError`, `KeyError`) is embedded as an `Option`-valued (or
  result-enum valued) function, `none` (or a dedicated constructor) marking
  the raise.
* Filesystem facts consulted by the code (`path.exists()`) are passed in as
  explicit `Bool` arguments; paths are plain strings.
-/

/-! ## Generic helpers -/

/-- Cartesian product of a list of lists in `itertools.product` order: the
first list is the outermost loop (varies slowest), exactly as
`itertools.product(*grid.values())` enumerates. -/
def listProduct {α : Type} : List (List α) → List (List α)
  | [] => [[]]
  | xs :: rest => xs.flatMap (fun x => (listProduct rest).map (fun ys => x :: ys))

/-! ## Setup-space enumeration (grid_search.py, lines 36-53) -/

/-- One run descriptor as yielded by `grid_search.generate_setups`: the tuple
`(config, formula, setup_config_path, input_config_path, input_formula_path,
output_dir_path, extra_options)`. -/
structure GridRunDescriptor (γ : Type) where
  config : List (String × γ)
  formula : String
  setupConfigPath : String
  inputConfigPath : String
  inputFormulaPath : String
  outputDirPath : String
  extraOptions : List String
deriving DecidableEq

/-- `grid_search.generate_configs`: `itertools.product` over the grid axes'
value lists, each combination re-zipped with the axis names (in the dict's
insertion order). -/
def generateConfigs {γ : Type} (grid : List (String × List γ)) :
    List (List (String × γ)) :=
  (listProduct (grid.map Prod.snd)).map (fun values => (grid.map Prod.fst).zip values)

/-- `grid_search.generate_setups`, parameterized by the module-level lists
`input_formulas`, `experiment_setups` and `grid` and by the path constants.
`fmt` stands for Python's fixed-precision formatting of a grid value. -/
def generateSetups {γ : Type} (fmt : γ → String)
    (inputFormulas experimentSetups : List String)
    (grid : List (String × List γ))
    (setupsDir inputsDir resultsDir : String) : List (GridRunDescriptor γ) :=
  inputFormulas.flatMap (fun formula =>
    experimentSetups.flatMap (fun setup =>
      (generateConfigs grid).map (fun config =>
        { config := config
          formula := formula
          setupConfigPath := setupsDir ++ "/" ++ setup ++ ".toml"
          inputConfigPath := inputsDir ++ "/" ++ formula ++ ".toml"
          inputFormulaPath := inputsDir ++ "/" ++ formula ++ ".cnf"
          outputDirPath := resultsDir ++ "/" ++ setup ++ "/" ++ formula ++ "/" ++
            String.intercalate "_" (config.map (fun ov => ov.1.take 3 ++ "=" ++ fmt ov.2))
          extraOptions := (config.map (fun ov => ["--" ++ ov.1, fmt ov.2])).flatten })))

/-- `grid_search.count_setups`: the length of the fully evaluated generator,
`len(list(generate_setups(Path())))` (a pure traversal; nothing is written). -/
def countSetups {γ : Type} (fmt : γ → String)
    (inputFormulas experimentSetups : List String)
    (grid : List (String × List γ))
    (setupsDir inputsDir : String) : ℕ :=
  (generateSetups fmt inputFormulas experimentSetups grid setupsDir inputsDir ".").length

/-! ## Command construction -/

/-- Command construction in `grid_search.run_grid_search` (lines 71-79):
executable, input formula, base config, setup config, optional input config,
then the grid-derived extra options. -/
def buildGridSearchCommand (dpPathAbs inputFormulaPath defaultConfigPath
    setupConfigPath inputConfigPath : String) (inputConfigExists : Bool)
    (extraOptions : List String) : List String :=
  [dpPathAbs, inputFormulaPath, "--config", defaultConfigPath, "--config", setupConfigPath]
    ++ (if inputConfigExists then ["--config", inputConfigPath] else [])
    ++ extraOptions

/-- Command construction in `run.run_dp_experiments` (lines 65-71) and
`experiments.run_dp_experiments` (lines 116-122): same as the grid-search
variant minus the grid options. -/
def buildRunCommand (dpPathAbs inputFormulaPath defaultConfigPath
    setupConfigPath inputConfigPath : String) (inputConfigExists : Bool) : List String :=
  [dpPathAbs, inputFormulaPath, "--config", defaultConfigPath, "--config", setupConfigPath]
    ++ (if inputConfigExists then ["--config", inputConfigPath] else [])

/-- Command construction in `run_experiments.run_dp_experiments` (lines 34-39):
here the three `--config` flags come first (the input config unconditionally,
with no existence check) and the input formula comes last behind
`--input-file`. -/
def buildRunExperimentsCommand (dpPathAbs defaultConfigPath setupConfigPath
    inputConfigPath inputFormulaPath : String) : List String :=
  [dpPathAbs, "--config", defaultConfigPath, "--config", setupConfigPath,
   "--config", inputConfigPath, "--input-file", inputFormulaPath]

/-! ## Process orchestration (experiments.py, lines 100-141; run.py, lines 49-91) -/

/-- One element of the tuple stream produced by `experiments.generate_setups`
(experiments.py, lines 47-54), as consumed by the preparation loop of
`experiments.run_dp_experiments`, with the one filesystem fact that loop
consults (`input_config_path.exists()`) carried alongside. -/
structure SetupEntry where
  setupConfigPath : String
  inputConfigPath : String
  inputConfigExists : Bool
  inputFormulaPath : String
  outputDirPath : String
deriving DecidableEq

/-- The `enumerate`-and-`continue` filter at the top of the preparation loop
(experiments.py, lines 110-115): with a nonnegative `setup_index` only the
entry at that position is kept, otherwise all entries are. -/
def selectByIndex {α : Type} (l : List α) (idx : Int) : List α :=
  if idx < 0 then l
  else (l.enum.filter (fun p => (p.1 : Int) = idx)).map Prod.snd

/-- The list `commands` built by the preparation loop of
`experiments.run_dp_experiments` (experiments.py, lines 106-125), which
unpacks each 4-tuple yielded by `experiments.generate_setups` into four
targets and builds one command per kept entry. -/
def prepareCommands (dpPathAbs defaultConfigPath : String)
    (setups : List SetupEntry) (setupIndex : Int) : List (List String) :=
  (selectByIndex setups setupIndex).map (fun e =>
    buildRunCommand dpPathAbs e.inputFormulaPath defaultConfigPath
      e.setupConfigPath e.inputConfigPath e.inputConfigExists)

/-- Outcome of a `run_dp_experiments` variant. `fatalExit` is
`sys.exit(code)` with the number of subprocesses spawned up to that point;
`assertFailed` is an uncaught `AssertionError` (again with the spawn count);
`raisedValueError` is an uncaught `ValueError` from tuple unpacking in the
preparation loop (see `runPyRunDpExperiments`); `completed` carries, in
submission order, each executed command paired with its
`is_run_in_parallel` flag (`false` means the run wrote directly to the
console's stdout/stderr, `true` means it was redirected to the per-run
`out.txt`). -/
inductive RunResult where
  | fatalExit (code : ℕ) (spawned : ℕ)
  | assertFailed (spawned : ℕ)
  | raisedValueError (spawned : ℕ)
  | completed (runs : List (List String × Bool))
deriving DecidableEq

/-- `experiments.run_dp_experiments` (experiments.py, lines 100-141):
validate the executable path (lines 101-104), build the commands (lines
106-125), then dispatch serially (`num_processes == 1`, console output) or
in parallel after the two asserts (`num_processes > 1` and
`len(commands) > num_processes`, lines 127-135). -/
def runDpExperiments (dpExists : Bool) (dpPathAbs defaultConfigPath : String)
    (setups : List SetupEntry) (setupIndex : Int) (numProcesses : ℕ) : RunResult :=
  if ¬ dpExists then
    RunResult.fatalExit 1 0
  else
    let commands := prepareCommands dpPathAbs defaultConfigPath setups setupIndex
    if numProcesses = 1 then
      RunResult.completed (commands.map (fun c => (c, false)))
    else if numProcesses ≤ 1 then
      RunResult.assertFailed 0
    else if commands.length ≤ numProcesses then
      RunResult.assertFailed 0
    else
      RunResult.completed (commands.map (fun c => (c, true)))

/-- `run.run_dp_experiments` (run.py, lines 49-91). It shares the
executable-path validation (lines 52-54) and, textually, the command
construction and parallelism guard with the experiments.py variant, but its
preparation loop (lines 58-62) unpacks each item of
`experiments.generate_setups` into SIX targets while that generator yields
4-tuples: the `for` statement raises `ValueError` on the first yielded
setup — before the `setup_index` filter, before any command is built and
before the parallelism guard — so with any setup enumerated no subprocess
is ever spawned. Only with an empty enumeration does control reach the
dispatch, over an empty command list (`num_processes == 1` runs nothing
serially; otherwise `assert len(commands) > num_processes`, or
`assert num_processes > 1`, fails). -/
def runPyRunDpExperiments (dpExists : Bool) (_dpPathAbs _defaultConfigPath : String)
    (setups : List SetupEntry) (_setupIndex : Int) (numProcesses : ℕ) : RunResult :=
  if ¬ dpExists then
    RunResult.fatalExit 1 0
  else
    match setups with
    | _ :: _ => RunResult.raisedValueError 0
    | [] =>
      if numProcesses = 1 then
        RunResult.completed []
      else
        RunResult.assertFailed 0

/-! ## Metrics collection (experiments.py, `process_metrics`, lines 145-158) -/

/-- The state of one run's `metrics.json` as seen by `process_metrics`:
missing file, present but unparsable JSON, parsable but missing a required
key (so that the processing callback raises `KeyError`), or fully valid
(identified by a run id so the order of successful processing is visible). -/
inductive RunArtifact where
  | absent
  | malformedJson
  | missingNamespace
  | parsed (id : ℕ)
deriving DecidableEq

/-- Outcome of `process_metrics` over a batch. `fatalExit` is `sys.exit(1)`
on an invalid results directory; `raisedAfter` is an uncaught exception
(`json.JSONDecodeError` or `KeyError`), carrying the ids of the runs whose
tables had been produced before the abort; `finished` carries the processed
ids and the number of absent-file runs that were reported and skipped. -/
inductive ProcResult where
  | fatalExit (code : ℕ) (processed : List ℕ)
  | raisedAfter (processed : List ℕ)
  | finished (processed : List ℕ) (skipped : ℕ)
deriving DecidableEq

/-- The per-run loop body of `process_metrics`: an absent file prints a
warning and continues; `json.load` on unparsable JSON raises; the callback on
a document with a missing namespace raises `KeyError`; a valid document is
processed. There is no try/except anywhere in the loop, so a raise
propagates out of the whole pass. -/
def processMetricsLoop : List RunArtifact → ProcResult
  | [] => ProcResult.finished [] 0
  | RunArtifact.absent :: rest =>
    match processMetricsLoop rest with
    | ProcResult.finished p s => ProcResult.finished p (s + 1)
    | r => r
  | RunArtifact.malformedJson :: _ => ProcResult.raisedAfter []
  | RunArtifact.missingNamespace :: _ => ProcResult.raisedAfter []
  | RunArtifact.parsed id :: rest =>
    match processMetricsLoop rest with
    | ProcResult.finished p s => ProcResult.finished (id :: p) s
    | ProcResult.raisedAfter p => ProcResult.raisedAfter (id :: p)
    | r => r

/-- `experiments.process_metrics`: exit 1 if the results directory does not
exist or is not a directory, before touching any metrics file; otherwise run
the per-run loop. -/
def processMetrics (resultsDirValid : Bool) (runs : List RunArtifact) : ProcResult :=
  if ¬ resultsDirValid then ProcResult.fatalExit 1 []
  else processMetricsLoop runs

/-- Ids of the valid (processed) runs of a batch, in order. -/
def processedIds : List RunArtifact → List ℕ
  | [] => []
  | RunArtifact.parsed id :: rest => id :: processedIds rest
  | _ :: rest => processedIds rest

/-- Whether an artifact lets the loop continue (it is not one of the two
raising states). -/
def isNonRaising : RunArtifact → Bool
  | RunArtifact.malformedJson => false
  | RunArtifact.missingNamespace => false
  | _ => true

/-- Number of absent-file runs in a batch. -/
def absentCount (l : List RunArtifact) : ℕ :=
  (l.filter (fun a => a = RunArtifact.absent)).length

/-! ## Statistic registry (tables.py and its older duplicate in experiments.py) -/

/-- Mean of a column, `Series.mean()`: sum divided by length (0/0 for the
empty column, matching no use here: callers below guard emptiness). -/
def listMean (xs : List ℚ) : ℚ := xs.sum / (xs.length : ℚ)

/-- The sample variance pandas computes under `Series.std()` with its default
`ddof=1`: sum of squared deviations divided by `n - 1`. -/
def sampleVar (xs : List ℚ) : ℚ :=
  ((xs.map (fun x => (x - listMean xs) ^ 2)).sum) / ((xs.length : ℚ) - 1)

/-- `tables.std` (tables.py, lines 157-161; identically experiments.py,
lines 309-313): `0` for fewer than 2 samples, otherwise `df_col.std()`,
which is pandas' sample standard deviation (`ddof=1`). -/
noncomputable def std (xs : List ℚ) : ℝ :=
  if xs.length < 2 then 0 else Real.sqrt ((sampleVar xs : ℚ) : ℝ)

/-- Modelled from the spec's words ("population standard deviation ...
normalized by n"): square root of the sum of squared deviations divided by
`n`. Stated only to compare the source's `std` against it. -/
noncomputable def popStd (xs : List ℚ) : ℝ :=
  Real.sqrt ((((xs.map (fun x => (x - listMean xs) ^ 2)).sum / (xs.length : ℚ) : ℚ) : ℝ))

/-- `tables.get_part_of_total_func` (tables.py, lines 145-154; identically
experiments.py, lines 297-306): with a zero total it returns `ret_0`, which
asserts that the column sums to zero (`none` models the `AssertionError`)
and returns `0` without dividing; otherwise it returns `part_of_total`,
`sum(column) / total * multiplier`. -/
def getPartOfTotalFunc (totalSum : ℚ) (multiplier : ℚ) : List ℚ → Option ℚ :=
  if totalSum = 0 then
    fun dfCol => if dfCol.sum = 0 then some 0 else none
  else
    fun dfCol => some (dfCol.sum / totalSum * multiplier)

/-- The three telemetry values consumed by the watched-literals statistics:
`counters["WatchedLiterals_Assignments"]`,
`cumulative_durations["WatchedLiterals_Backtrack"]` and
`cumulative_durations["WatchedLiterals_Propagation"]` (integers per the
metrics.json schema). -/
structure WatchedLiteralsMetrics where
  assignments : ℤ
  backtrack : ℤ
  propagation : ℤ
deriving DecidableEq

/-- `tables.get_unit_propagations_per_second` (tables.py, lines 105-111):
`-1` when the cumulative propagation duration is 0, otherwise
`assignments / (duration / 1_000_000)`. -/
def tablesGetUnitPropagationsPerSecond (m : WatchedLiteralsMetrics) : ℚ :=
  if m.propagation = 0 then -1
  else (m.assignments : ℚ) / ((m.propagation : ℚ) / 1000000)

/-- `tables.get_backtrack_to_propagation_ratio` (tables.py, lines 114-119):
`-1` when the propagation duration is 0, otherwise `backtrack / propagation`. -/
def tablesGetBacktrackToPropagationRatio (m : WatchedLiteralsMetrics) : ℚ :=
  if m.propagation = 0 then -1
  else (m.backtrack : ℚ) / (m.propagation : ℚ)

/-- `experiments.get_unit_propagations_per_second` (experiments.py, lines
261-265): the same formula with no zero guard; when the duration is 0 the
division `assignments / 0.0` raises `ZeroDivisionError`, modelled as `none`. -/
def expGetUnitPropagationsPerSecond (m : WatchedLiteralsMetrics) : Option ℚ :=
  if m.propagation = 0 then none
  else some ((m.assignments : ℚ) / ((m.propagation : ℚ) / 1000000))

/-- `experiments.get_backtrack_to_propagation_ratio` (experiments.py, lines
268-271): no zero guard; `backtrack / 0` raises `ZeroDivisionError`,
modelled as `none`. -/
def expGetBacktrackToPropagationRatio (m : WatchedLiteralsMetrics) : Option ℚ :=
  if m.propagation = 0 then none
  else some ((m.backtrack : ℚ) / (m.propagation : ℚ))

/-- The value of `table[0].corr(table[1])` on the two NaN-padded columns that
`get_heuristic_correlation` builds: pandas keeps only the pairwise-complete
rows, which are exactly `zip` of the two series, and yields NaN (`none`)
when no complete pair remains or when either column's squared-deviation sum
is zero; otherwise it is Pearson's `cov / sqrt(varx * vary)`. -/
noncomputable def pearson (ps : List (ℚ × ℚ)) : Option ℝ :=
  if ps.length = 0 then none
  else
    let mx := listMean (ps.map Prod.fst)
    let my := listMean (ps.map Prod.snd)
    let cov := (ps.map (fun p => (p.1 - mx) * (p.2 - my))).sum
    let vx := ((ps.map Prod.fst).map (fun x => (x - mx) ^ 2)).sum
    let vy := ((ps.map Prod.snd).map (fun y => (y - my) ^ 2)).sum
    if vx * vy = 0 then none
    else some (((cov : ℚ) : ℝ) / Real.sqrt (((vx * vy : ℚ) : ℝ)))

/-- `tables.get_heuristic_correlation` (tables.py, lines 93-102; identically
experiments.py, lines 249-258): builds a DataFrame with the two series as
rows and transposes it; `table.empty` holds exactly when both series are
empty (rows are NaN-padded to the longer length, so one nonempty series
keeps the frame nonempty), in which case it returns `0`; otherwise it
returns `table[0].corr(table[1])`. -/
noncomputable def getHeuristicCorrelation (s1 s2 : List ℚ) : Option ℝ :=
  if s1.length = 0 ∧ s2.length = 0 then some 0
  else pearson (s1.zip s2)

/-! ## Summary-table accumulation (summary_table.py, lines 7-25) -/

/-- Python-dict lookup on an insertion-ordered association list. -/
def assocFind {α : Type} (k : String) : List (String × α) → Option α
  | [] => none
  | (k', v) :: rest => if k' = k then some v else assocFind k rest

/-- Python-dict assignment `d[k] = v` on an insertion-ordered association
list: update in place if the key exists, append otherwise. -/
def assocSet {α : Type} (k : String) (v : α) : List (String × α) → List (String × α)
  | [] => [(k, v)]
  | (k', v') :: rest => if k' = k then (k, v) :: rest else (k', v') :: assocSet k v rest

/-- The `global` column key of summary_table.py. -/
def globalCol : String := "global"

/-- The telemetry fields consumed by
`summary_table.extract_setup_summary_data`. -/
structure SummaryMetrics where
  durationsAlgorithmTotal : List ℚ
  seriesClauseCounts : List ℚ
  countersInitVars : ℚ
  countersFinalVars : ℚ
  countersMinVar : ℚ
deriving DecidableEq

/-- The per-setup tuple stored under `data[input_key][setup_key]`:
`(AlgorithmTotal[0], ClauseCounts[-1], max(ClauseCounts), FinalVars)`.
The indexing raises on an empty list, modelled as `none`. -/
def setupTuple (m : SummaryMetrics) : Option (List ℚ) := do
  let d0 ← m.durationsAlgorithmTotal.head?
  let cLast ← m.seriesClauseCounts.getLast?
  let cMax ← m.seriesClauseCounts.max?
  pure [d0, cLast, cMax, m.countersFinalVars]

/-- The per-input `general` tuple:
`(ClauseCounts[0], InitVars, InitVars - MinVar + 1)`. -/
def generalTuple (m : SummaryMetrics) : Option (List ℚ) := do
  let c0 ← m.seriesClauseCounts.head?
  pure [c0, m.countersInitVars, m.countersInitVars - m.countersMinVar + 1]

/-- `summary_table.extract_setup_summary_data`: ensure the input's inner dict
exists, store the setup tuple under `setup_key`, then either record the
`general` tuple under `global` (first setup for this input) or assert that
the already-recorded tuple equals `general` (`none` models the
`AssertionError`). The recorded tuple is never reassigned. -/
def extractSetupSummaryData (m : SummaryMetrics)
    (data : List (String × List (String × List ℚ))) (setupKey inputKey : String) :
    Option (List (String × List (String × List ℚ))) := do
  let sv ← setupTuple m
  let gv ← generalTuple m
  let inner0 := (assocFind inputKey data).getD []
  let inner1 := assocSet setupKey sv inner0
  match assocFind globalCol inner1 with
  | none => pure (assocSet inputKey (assocSet globalCol gv inner1) data)
  | some g => if g = gv then pure (assocSet inputKey inner1 data) else none

/-- The `global` tuple recorded for one input in the accumulated data. -/
def globalOf (data : List (String × List (String × List ℚ))) (inputKey : String) :
    Option (List ℚ) :=
  (assocFind inputKey data).bind (assocFind globalCol)

/-! ## Helper lemmas -/

theorem listProduct_length {α : Type} (ls : List (List α)) :
    (listProduct ls).length = (ls.map List.length).prod := by
  induction ls with
  | nil => rfl
  | cons xs rest ih =>
    simp only [listProduct, List.length_flatMap, Function.comp_def, List.length_map, ih,
      List.map_const', List.sum_replicate, smul_eq_mul, List.map_cons, List.prod_cons]

theorem length_flatMap_const {α β : Type} (l : List α) (f : α → List β) (c : ℕ)
    (h : ∀ a ∈ l, (f a).length = c) : (l.flatMap f).length = l.length * c := by
  induction l with
  | nil => simp
  | cons x rest ih =>
    simp only [List.flatMap_cons, List.length_append, h x (by simp),
      ih (fun a ha => h a (by simp [ha])), List.length_cons]
    ring

theorem generateConfigs_length {γ : Type} (grid : List (String × List γ)) :
    (generateConfigs grid).length = (grid.map (fun a => a.2.length)).prod := by
  simp only [generateConfigs, List.length_map, listProduct_length, List.map_map,
    Function.comp_def]

theorem assocFind_assocSet_self {α : Type} (k : String) (v : α)
    (m : List (String × α)) : assocFind k (assocSet k v m) = some v := by
  induction m with
  | nil => simp [assocFind, assocSet]
  | cons p rest ih =>
    by_cases h : p.1 = k <;> simp [assocFind, assocSet, h, ih]

theorem assocFind_assocSet_ne {α : Type} (k k' : String) (v : α)
    (m : List (String × α)) (h : k' ≠ k) :
    assocFind k (assocSet k' v m) = assocFind k m := by
  induction m with
  | nil => simp [assocFind, assocSet, h]
  | cons p rest ih =>
    by_cases hp : p.1 = k'
    · simp [assocFind, assocSet, hp, h]
    · by_cases hk : p.1 = k <;> simp [assocFind, assocSet, hp, hk, ih, Ne.symm h]


/-! ## Claim theorems -/

/-- C6: for input problems, setups and grid axes of sizes `p`, `s`,
`a1..ak`, `generate_setups` yields exactly `p * s * a1 * ... * ak` run
descriptors, and `count_setups` reports exactly that length (the embedding
is a pure function, so the traversal has no side effects). -/
theorem generateSetups_count {γ : Type} (fmt : γ → String)
    (problems setups : List String) (grid : List (String × List γ))
    (setupsDir inputsDir resultsDir : String) :
    (generateSetups fmt problems setups grid setupsDir inputsDir resultsDir).length
      = problems.length * setups.length * (grid.map (fun a => a.2.length)).prod
    ∧ countSetups fmt problems setups grid setupsDir inputsDir
      = problems.length * setups.length * (grid.map (fun a => a.2.length)).prod := by
  have hlen : ∀ rd : String,
      (generateSetups fmt problems setups grid setupsDir inputsDir rd).length
        = problems.length * setups.length * (grid.map (fun a => a.2.length)).prod := by
    intro rd
    unfold generateSetups
    rw [length_flatMap_const _ _ (setups.length * (grid.map (fun a => a.2.length)).prod)]
    · ring
    · intro a _
      rw [length_flatMap_const _ _ ((grid.map (fun a => a.2.length)).prod)]
      intro b _
      simp [generateConfigs_length]
  exact ⟨hlen resultsDir, hlen "."⟩

/-- C5: with total 0, `ratio_of_total` returns 0 on a column summing to 0
(without dividing: the zero-total branch is the division-free `ret_0`) and
fails its assertion on a column with nonzero sum; with a nonzero total it
returns `sum(column) / total * 100000`. -/
theorem getPartOfTotalFunc_spec (total : ℚ) (col : List ℚ) :
    (total = 0 → (col.sum = 0 → getPartOfTotalFunc total 100000 col = some 0)
               ∧ (col.sum ≠ 0 → getPartOfTotalFunc total 100000 col = none))
    ∧ (total ≠ 0 → getPartOfTotalFunc total 100000 col
        = some (col.sum / total * 100000)) := by
  constructor
  · intro h0
    constructor
    · intro hs; simp [getPartOfTotalFunc, h0, hs]
    · intro hs; simp [getPartOfTotalFunc, h0, hs]
  · intro h0; simp [getPartOfTotalFunc, h0]

theorem getPartOfTotalFunc_spec_witness :
    getPartOfTotalFunc 0 100000 [1, -1] = some 0
    ∧ getPartOfTotalFunc 0 100000 [1] = none
    ∧ getPartOfTotalFunc 2 100000 [3] = some ([(3 : ℚ)].sum / 2 * 100000) := by
  have hsum : ([(1 : ℚ), -1].sum = 0) := by norm_num
  have hsum1 : ([(1 : ℚ)].sum ≠ 0) := by norm_num
  exact ⟨((getPartOfTotalFunc_spec 0 [1, -1]).1 rfl).1 hsum,
         ((getPartOfTotalFunc_spec 0 [1]).1 rfl).2 hsum1,
         (getPartOfTotalFunc_spec 2 [3]).2 (by norm_num)⟩

/-- C7: a nonexistent executable path makes the batch exit with code 1
before spawning any subprocess, and an invalid results directory makes
metrics processing exit with code 1 before any metrics file is processed. -/
theorem fatalValidation_spec (dpPathAbs defaultConfigPath : String)
    (setups : List SetupEntry) (setupIndex : Int) (numProcesses : ℕ)
    (runs : List RunArtifact) :
    runDpExperiments false dpPathAbs defaultConfigPath setups setupIndex numProcesses
      = RunResult.fatalExit 1 0
    ∧ processMetrics false runs = ProcResult.fatalExit 1 [] := by
  constructor
  · simp [runDpExperiments]
  · simp [processMetrics]

/-- C8 counterexample: in `run.run_dp_experiments`, with an existing
executable, one pending setup and `num_processes = 1`, the result is an
uncaught `ValueError` from the preparation loop's 6-target unpack of a
4-tuple (zero subprocesses spawned) — not the serial console-output
execution of that run the claim states; and with 3 pending runs and 2
workers it likewise raises `ValueError` instead of executing in parallel. -/
theorem parallelismGuard_counterexample :
    runPyRunDpExperiments true "dp" "d.toml"
        [⟨"s.toml", "i.toml", false, "f.cnf", "o"⟩] (-1) 1
      = RunResult.raisedValueError 0
    ∧ runPyRunDpExperiments true "dp" "d.toml"
        [⟨"s.toml", "i.toml", false, "f.cnf", "o"⟩] (-1) 1
      ≠ RunResult.completed
          [(buildRunCommand "dp" "f.cnf" "d.toml" "s.toml" "i.toml" false, false)]
    ∧ runPyRunDpExperiments true "dp" "d.toml"
        [⟨"s.toml", "i.toml", false, "f.cnf", "o"⟩,
         ⟨"s.toml", "i2.toml", false, "f2.cnf", "o2"⟩,
         ⟨"s.toml", "i3.toml", false, "f3.cnf", "o3"⟩] (-1) 2
      = RunResult.raisedValueError 0 := by
  refine ⟨rfl, ?_, rfl⟩
  decide

/-- C8 amended: in `experiments.run_dp_experiments` the guard behaves as
claimed — more than one worker raises an `AssertionError` unless there are
strictly more pending runs than workers, in which case every run executes
with output redirected to its log, and with exactly one worker every run
executes serially with console output (its `is_run_in_parallel` flag
false). In `run.run_dp_experiments`, however, the preparation loop unpacks
each 4-tuple yielded by `experiments.generate_setups` into six targets and
raises `ValueError` on the first enumerated setup, before the parallelism
guard, so whenever any setup is enumerated no run executes at all. -/
theorem parallelismGuard_amended (dpPathAbs defaultConfigPath : String)
    (setups : List SetupEntry) (setupIndex : Int) (numProcesses : ℕ) :
    (1 < numProcesses →
      ((prepareCommands dpPathAbs defaultConfigPath setups setupIndex).length ≤ numProcesses →
        runDpExperiments true dpPathAbs defaultConfigPath setups setupIndex numProcesses
          = RunResult.assertFailed 0)
      ∧ (numProcesses < (prepareCommands dpPathAbs defaultConfigPath setups setupIndex).length →
        runDpExperiments true dpPathAbs defaultConfigPath setups setupIndex numProcesses
          = RunResult.completed
              ((prepareCommands dpPathAbs defaultConfigPath setups setupIndex).map
                (fun c => (c, true)))))
    ∧ (numProcesses = 1 →
        runDpExperiments true dpPathAbs defaultConfigPath setups setupIndex numProcesses
          = RunResult.completed
              ((prepareCommands dpPathAbs defaultConfigPath setups setupIndex).map
                (fun c => (c, false))))
    ∧ (setups ≠ [] →
        runPyRunDpExperiments true dpPathAbs defaultConfigPath setups setupIndex numProcesses
          = RunResult.raisedValueError 0) := by
  refine ⟨?_, ?_, ?_⟩
  · intro h1
    have hne : ¬ numProcesses = 1 := by omega
    have hle : ¬ numProcesses ≤ 1 := by omega
    constructor
    · intro hlen
      simp [runDpExperiments, hne, hle, hlen]
    · intro hlen
      have hgt : ¬ (prepareCommands dpPathAbs defaultConfigPath setups setupIndex).length
          ≤ numProcesses := by omega
      simp [runDpExperiments, hne, hle, hgt]
  · intro h1
    simp [runDpExperiments, h1]
  · intro hne
    cases setups with
    | nil => exact absurd rfl hne
    | cons e rest => simp [runPyRunDpExperiments]

theorem parallelismGuard_amended_witness :
    runDpExperiments true "dp" "d.toml" [⟨"s.toml", "i.toml", false, "f.cnf", "o"⟩] 0 2
      = RunResult.assertFailed 0
    ∧ runDpExperiments true "dp" "d.toml" [⟨"s.toml", "i.toml", false, "f.cnf", "o"⟩] 0 1
      = RunResult.completed
          ((prepareCommands "dp" "d.toml" [⟨"s.toml", "i.toml", false, "f.cnf", "o"⟩] 0).map
            (fun c => (c, false)))
    ∧ runPyRunDpExperiments true "dp" "d.toml"
        [⟨"s.toml", "i.toml", false, "f.cnf", "o"⟩] 0 1
      = RunResult.raisedValueError 0 := by
  refine ⟨?_, ?_, ?_⟩
  · exact ((parallelismGuard_amended "dp" "d.toml"
      [⟨"s.toml", "i.toml", false, "f.cnf", "o"⟩] 0 2).1 (by norm_num)).1 (by decide)
  · exact (parallelismGuard_amended "dp" "d.toml"
      [⟨"s.toml", "i.toml", false, "f.cnf", "o"⟩] 0 1).2.1 rfl
  · exact (parallelismGuard_amended "dp" "d.toml"
      [⟨"s.toml", "i.toml", false, "f.cnf", "o"⟩] 0 1).2.2 (by decide)

/-- C2 counterexample: in `run_experiments.run_dp_experiments` the argument
after the executable is `--config`, not the problem's input file, which
instead comes last behind `--input-file`; so the claimed order does not hold
for every run descriptor. -/
theorem commandOrder_counterexample :
    (buildRunExperimentsCommand "dp" "default.toml" "setup.toml" "input.toml" "formula.cnf")[1]?
      = some "--config"
    ∧ (buildRunExperimentsCommand "dp" "default.toml" "setup.toml" "input.toml" "formula.cnf")[1]?
      ≠ some "formula.cnf"
    ∧ (buildRunExperimentsCommand "dp" "default.toml" "setup.toml" "input.toml"
        "formula.cnf").getLast?
      = some "formula.cnf" := by
  refine ⟨rfl, ?_, rfl⟩
  decide

/-- C2 amended: in `run_grid_search` and in `run.run_dp_experiments` /
`experiments.run_dp_experiments` the order is executable, input file,
`--config` base, `--config` setup, `--config` problem only if that file
exists, and (grid search only) the grid-derived overrides strictly after all
`--config` flags; in `run_experiments.run_dp_experiments` the three
`--config` flags come directly after the executable (the problem config
unconditionally) and the input file comes last behind `--input-file`. -/
theorem commandOrder_amended (dp f dc sc ic : String) (ex : Bool)
    (extra : List String) :
    buildGridSearchCommand dp f dc sc ic ex extra
      = buildRunCommand dp f dc sc ic ex ++ extra
    ∧ (buildRunCommand dp f dc sc ic ex)[0]? = some dp
    ∧ (buildRunCommand dp f dc sc ic ex)[1]? = some f
    ∧ buildRunCommand dp f dc sc ic true
        = [dp, f, "--config", dc, "--config", sc, "--config", ic]
    ∧ buildRunCommand dp f dc sc ic false
        = [dp, f, "--config", dc, "--config", sc]
    ∧ buildRunExperimentsCommand dp dc sc ic f
        = [dp, "--config", dc, "--config", sc, "--config", ic, "--input-file", f] := by
  refine ⟨?_, ?_, ?_, ?_, ?_, rfl⟩ <;>
    simp [buildGridSearchCommand, buildRunCommand]

/-- C4 counterexample: on a metrics document whose cumulative
`WatchedLiterals_Propagation` duration is 0, the `experiments.py` variants of
the two statistics raise `ZeroDivisionError` (modelled as `none`) instead of
returning the sentinel `-1`. -/
theorem watchedLiterals_counterexample :
    expGetUnitPropagationsPerSecond ⟨5, 3, 0⟩ = none
    ∧ expGetBacktrackToPropagationRatio ⟨5, 3, 0⟩ = none
    ∧ expGetUnitPropagationsPerSecond ⟨5, 3, 0⟩ ≠ some (-1)
    ∧ expGetBacktrackToPropagationRatio ⟨5, 3, 0⟩ ≠ some (-1) := by
  refine ⟨rfl, rfl, ?_, ?_⟩ <;> decide

/-- C4 amended: the `tables.py` statistics return the sentinel `-1` on a zero
propagation duration and never raise, and otherwise return
`assignments / (duration / 1_000_000)` and `backtrack / propagation`; the
duplicated `experiments.py` statistics compute the same formulas but raise
`ZeroDivisionError` on a zero propagation duration. -/
theorem watchedLiterals_amended (m : WatchedLiteralsMetrics) :
    (m.propagation = 0 →
      tablesGetUnitPropagationsPerSecond m = -1
      ∧ tablesGetBacktrackToPropagationRatio m = -1
      ∧ expGetUnitPropagationsPerSecond m = none
      ∧ expGetBacktrackToPropagationRatio m = none)
    ∧ (m.propagation ≠ 0 →
      tablesGetUnitPropagationsPerSecond m
        = (m.assignments : ℚ) / ((m.propagation : ℚ) / 1000000)
      ∧ tablesGetBacktrackToPropagationRatio m
        = (m.backtrack : ℚ) / (m.propagation : ℚ)
      ∧ expGetUnitPropagationsPerSecond m
        = some ((m.assignments : ℚ) / ((m.propagation : ℚ) / 1000000))
      ∧ expGetBacktrackToPropagationRatio m
        = some ((m.backtrack : ℚ) / (m.propagation : ℚ))) := by
  constructor <;> intro h <;>
    simp [tablesGetUnitPropagationsPerSecond, tablesGetBacktrackToPropagationRatio,
      expGetUnitPropagationsPerSecond, expGetBacktrackToPropagationRatio, h]

theorem watchedLiterals_amended_witness :
    tablesGetUnitPropagationsPerSecond ⟨7, 2, 0⟩ = -1
    ∧ tablesGetBacktrackToPropagationRatio ⟨7, 2, 0⟩ = -1
    ∧ expGetUnitPropagationsPerSecond ⟨7, 2, 0⟩ = none
    ∧ expGetBacktrackToPropagationRatio ⟨7, 2, 0⟩ = none :=
  (watchedLiterals_amended ⟨7, 2, 0⟩).1 rfl

/-- C3 counterexample: on the two-sample column `[0, 2]` the source's `std`
equals `sqrt 2` (pandas' sample standard deviation, normalized by `n - 1`)
while the population standard deviation (normalized by `n`) is `1`. -/
theorem std_counterexample : std [0, 2] ≠ popStd [0, 2] := by
  have hs : sampleVar [0, 2] = 2 := by
    norm_num [sampleVar, listMean]
  have hstd : std [0, 2] = Real.sqrt 2 := by
    have hlen : ¬ (([0, 2] : List ℚ).length < 2) := by norm_num
    simp only [std, hlen, if_false, hs]
    norm_num
  have hpop : popStd [0, 2] = 1 := by
    have h1 : ((([0, 2] : List ℚ).map (fun x => (x - listMean [0, 2]) ^ 2)).sum
        / ((([0, 2] : List ℚ).length : ℚ)) : ℚ) = 1 := by
      norm_num [listMean]
    simp only [popStd, h1]
    norm_num [Real.sqrt_one]
  rw [hstd, hpop]
  intro h
  have h2 : (Real.sqrt 2) ^ 2 = 2 := Real.sq_sqrt (by norm_num)
  rw [h] at h2
  norm_num at h2

/-- C3 amended: `std` returns exactly 0 for a column with fewer than 2
samples; for at least 2 samples it returns the sample standard deviation
(pandas' `Series.std()` default `ddof=1`, normalized by `n - 1`), i.e. its
square is the sum of squared deviations divided by `n - 1` — not the
population standard deviation. -/
theorem std_spec (xs : List ℚ) :
    (xs.length < 2 → std xs = 0)
    ∧ (2 ≤ xs.length →
        std xs = Real.sqrt ((sampleVar xs : ℚ) : ℝ)
        ∧ (std xs) ^ 2 = ((sampleVar xs : ℚ) : ℝ)) := by
  constructor
  · intro h; simp [std, h]
  · intro h
    have hlt : ¬ xs.length < 2 := by omega
    have heq : std xs = Real.sqrt ((sampleVar xs : ℚ) : ℝ) := by simp [std, hlt]
    refine ⟨heq, ?_⟩
    rw [heq]
    apply Real.sq_sqrt
    have hnum : 0 ≤ (xs.map (fun x => (x - listMean xs) ^ 2)).sum := by
      apply List.sum_nonneg
      intro a ha
      simp only [List.mem_map] at ha
      obtain ⟨x, _, rfl⟩ := ha
      positivity
    have hden : 0 ≤ (xs.length : ℚ) - 1 := by
      have h2 : (2 : ℚ) ≤ (xs.length : ℚ) := by exact_mod_cast h
      linarith
    have hq : (0 : ℚ) ≤ sampleVar xs := div_nonneg hnum hden
    exact_mod_cast hq

theorem std_spec_witness :
    2 ≤ ([0, 2] : List ℚ).length ∧ (std [0, 2]) ^ 2 = ((sampleVar [0, 2] : ℚ) : ℝ) :=
  ⟨by norm_num, ((std_spec [0, 2]).2 (by norm_num)).2⟩

/-- C9 counterexample: with an empty heuristic-score series and a nonempty
clause-count-difference series the transposed frame is not empty (the short
row is NaN-padded), so the code does not return 0; the correlation over zero
complete pairs is NaN (`none`). -/
theorem heuristicCorrelation_counterexample :
    getHeuristicCorrelation [] [1, 2] = none
    ∧ getHeuristicCorrelation [] [1, 2] ≠ some 0 := by
  have h : getHeuristicCorrelation [] [1, 2] = none := by
    simp [getHeuristicCorrelation, pearson]
  exact ⟨h, by simp [h]⟩

/-- C9 amended: the statistic returns 0 exactly when both series are empty
(which, under the document invariant that all series share one step count,
is the only way either can be empty); when only one series is empty the
result is NaN (`none`), not 0; otherwise it is the Pearson correlation of
the pairwise-complete (zipped) series. -/
theorem heuristicCorrelation_spec (s1 s2 : List ℚ) :
    (s1 = [] ∧ s2 = [] → getHeuristicCorrelation s1 s2 = some 0)
    ∧ (¬ (s1 = [] ∧ s2 = []) → getHeuristicCorrelation s1 s2 = pearson (s1.zip s2))
    ∧ ((s1 = [] ∨ s2 = []) → ¬ (s1 = [] ∧ s2 = []) →
        getHeuristicCorrelation s1 s2 = none) := by
  refine ⟨?_, ?_, ?_⟩
  · rintro ⟨rfl, rfl⟩
    simp [getHeuristicCorrelation]
  · intro h
    have hcond : ¬ (s1.length = 0 ∧ s2.length = 0) := by
      simpa [List.length_eq_zero] using h
    unfold getHeuristicCorrelation
    rw [if_neg hcond]
  · intro hor hne
    have hcond : ¬ (s1.length = 0 ∧ s2.length = 0) := by
      simpa [List.length_eq_zero] using hne
    have hz : s1.zip s2 = [] := by
      rcases hor with rfl | rfl
      · simp
      · simp
    unfold getHeuristicCorrelation
    rw [if_neg hcond, hz]
    simp [pearson]

theorem heuristicCorrelation_spec_witness :
    getHeuristicCorrelation [] [] = some 0
    ∧ getHeuristicCorrelation [0] [] = none :=
  ⟨(heuristicCorrelation_spec [] []).1 ⟨rfl, rfl⟩,
   (heuristicCorrelation_spec [0] []).2.2 (Or.inr rfl) (by simp)⟩

theorem processMetricsLoop_clean (pre : List RunArtifact)
    (h : ∀ a ∈ pre, isNonRaising a = true) :
    processMetricsLoop pre = ProcResult.finished (processedIds pre) (absentCount pre) := by
  induction pre with
  | nil => rfl
  | cons a rest ih =>
    have hrest := ih (fun x hx => h x (List.mem_cons_of_mem a hx))
    cases a with
    | absent =>
      simp [processMetricsLoop, hrest, processedIds, absentCount, List.filter_cons]
    | malformedJson =>
      exact absurd (h _ (List.mem_cons_self _ _)) (by simp [isNonRaising])
    | missingNamespace =>
      exact absurd (h _ (List.mem_cons_self _ _)) (by simp [isNonRaising])
    | parsed id =>
      simp [processMetricsLoop, hrest, processedIds, absentCount, List.filter_cons]

theorem processMetricsLoop_raises (pre post : List RunArtifact) (a : RunArtifact)
    (ha : isNonRaising a = false) (h : ∀ x ∈ pre, isNonRaising x = true) :
    processMetricsLoop (pre ++ a :: post) = ProcResult.raisedAfter (processedIds pre) := by
  induction pre with
  | nil =>
    cases a with
    | malformedJson => rfl
    | missingNamespace => rfl
    | absent => simp [isNonRaising] at ha
    | parsed id => simp [isNonRaising] at ha
  | cons b rest ih =>
    have hrest := ih (fun x hx => h x (List.mem_cons_of_mem b hx))
    cases b with
    | absent => simp [processMetricsLoop, hrest, processedIds]
    | parsed id => simp [processMetricsLoop, hrest, processedIds]
    | malformedJson =>
      exact absurd (h _ (List.mem_cons_self _ _)) (by simp [isNonRaising])
    | missingNamespace =>
      exact absurd (h _ (List.mem_cons_self _ _)) (by simp [isNonRaising])

/-- C1 counterexample: a batch with one unparsable metrics file between two
valid ones. The aggregation pass aborts (the `json.load` exception
propagates out of `process_metrics`), having produced tables only for the
run before the malformed file — not, as the claim states, for every other
run. -/
theorem processMetrics_counterexample :
    processMetrics true
        [RunArtifact.parsed 0, RunArtifact.malformedJson, RunArtifact.parsed 2]
      = ProcResult.raisedAfter [0]
    ∧ processMetrics true
        [RunArtifact.parsed 0, RunArtifact.malformedJson, RunArtifact.parsed 2]
      ≠ ProcResult.finished [0, 2] 0 := by
  refine ⟨rfl, ?_⟩
  decide

/-- C1 amended: `process_metrics` has no exception handling, so a present
but malformed metrics file (unparsable JSON, or a document missing a
required namespace so the processing callback raises `KeyError`) aborts the
whole aggregation pass; tables exist only for the valid runs processed
before it, and later runs are never reached. Only absent metrics files are
reported per run and skipped with the batch continuing: a batch with no
malformed file finishes, processing every valid run and skipping every
absent one. -/
theorem processMetrics_malformed_aborts (pre post : List RunArtifact)
    (h : ∀ a ∈ pre, isNonRaising a = true) :
    processMetrics true (pre ++ RunArtifact.malformedJson :: post)
      = ProcResult.raisedAfter (processedIds pre)
    ∧ processMetrics true (pre ++ RunArtifact.missingNamespace :: post)
      = ProcResult.raisedAfter (processedIds pre)
    ∧ processMetrics true pre
      = ProcResult.finished (processedIds pre) (absentCount pre) := by
  refine ⟨?_, ?_, ?_⟩
  · simpa [processMetrics] using
      processMetricsLoop_raises pre post RunArtifact.malformedJson rfl h
  · simpa [processMetrics] using
      processMetricsLoop_raises pre post RunArtifact.missingNamespace rfl h
  · simpa [processMetrics] using processMetricsLoop_clean pre h

theorem processMetrics_malformed_aborts_witness :
    processMetrics true
        [RunArtifact.parsed 0, RunArtifact.absent, RunArtifact.malformedJson,
         RunArtifact.parsed 2]
      = ProcResult.raisedAfter [0] := by
  have h : ∀ a ∈ [RunArtifact.parsed 0, RunArtifact.absent], isNonRaising a = true := by
    decide
  exact (processMetrics_malformed_aborts
    [RunArtifact.parsed 0, RunArtifact.absent] [RunArtifact.parsed 2] h).1

/-- C10: per-input `global` tuple accumulation. If no `global` tuple is
recorded yet for the input, the call records the document's general tuple;
if one is recorded, the call succeeds exactly when the document's general
tuple equals it (otherwise the assertion fails), and the recorded tuple is
left unchanged — it is never overwritten. -/
theorem summaryGlobal_invariant (m : SummaryMetrics)
    (data : List (String × List (String × List ℚ))) (setupKey inputKey : String)
    (sv gv g0 : List ℚ) (hs : setupTuple m = some sv) (hg : generalTuple m = some gv)
    (hsk : setupKey ≠ globalCol) :
    (globalOf data inputKey = none →
      (extractSetupSummaryData m data setupKey inputKey).bind (fun d => globalOf d inputKey)
        = some gv)
    ∧ (globalOf data inputKey = some g0 →
        (g0 = gv →
          (extractSetupSummaryData m data setupKey inputKey).bind
            (fun d => globalOf d inputKey) = some g0)
        ∧ (g0 ≠ gv → extractSetupSummaryData m data setupKey inputKey = none)) := by
  have hfind : assocFind globalCol (assocSet setupKey sv ((assocFind inputKey data).getD []))
      = globalOf data inputKey := by
    rw [assocFind_assocSet_ne _ _ _ _ hsk]
    cases hfd : assocFind inputKey data with
    | none => simp [globalOf, hfd, assocFind]
    | some inner => simp [globalOf, hfd]
  constructor
  · intro hnone
    have hext : extractSetupSummaryData m data setupKey inputKey
        = some (assocSet inputKey (assocSet globalCol gv
            (assocSet setupKey sv ((assocFind inputKey data).getD []))) data) := by
      simp only [extractSetupSummaryData, hs, hg, Option.bind_eq_bind, Option.some_bind]
      rw [hfind, hnone]
      rfl
    rw [hext]
    simp [globalOf, assocFind_assocSet_self]
  · intro hsome
    constructor
    · intro heq
      have hext : extractSetupSummaryData m data setupKey inputKey
          = some (assocSet inputKey
              (assocSet setupKey sv ((assocFind inputKey data).getD [])) data) := by
        simp only [extractSetupSummaryData, hs, hg, Option.bind_eq_bind, Option.some_bind]
        rw [hfind, hsome]
        simp [heq]
      rw [hext]
      simp only [Option.some_bind, globalOf, assocFind_assocSet_self, Option.some_bind]
      rw [hfind]
      exact hsome
    · intro hne
      simp only [extractSetupSummaryData, hs, hg, Option.bind_eq_bind, Option.some_bind]
      rw [hfind, hsome]
      simp [hne]

theorem summaryGlobal_invariant_witness :
    (extractSetupSummaryData ⟨[10], [4, 3], 6, 2, 1⟩ [] "minimal_bloat" "ais6").bind
      (fun d => globalOf d "ais6") = some [4, 6, 6] := by
  have hs : setupTuple ⟨[10], [4, 3], 6, 2, 1⟩ = some [10, 3, 4, 2] := by
    norm_num [setupTuple]
  have hg : generalTuple ⟨[10], [4, 3], 6, 2, 1⟩ = some [4, 6, 6] := by
    norm_num [generalTuple]
  have hsk : "minimal_bloat" ≠ globalCol := by decide
  exact (summaryGlobal_invariant ⟨[10], [4, 3], 6, 2, 1⟩ [] "minimal_bloat" "ais6"
    [10, 3, 4, 2] [4, 6, 6] [] hs hg hsk).1 rfl
